import Mathlib

/-!
Verification of the token/session lifecycle of the `login-backend`
repository (TypeScript/Express/Mongoose).  The definitions below are a
shallow embedding of `src/services/jwt.service.ts`,
`src/models/user.model.ts`, `src/controllerd/auth.controller.ts` and the
error handler in `src/middlewares` (the `ApiError` hierarchy and the
global `errorHandler`).  Machine-level collaborators are modelled
explicitly:

* `crypto.createHash('sha256')` and `bcrypt` are modelled as deterministic
  injective functions on strings (the claims depend only on determinism of
  the hash, not on one-wayness);
* a signed JWT is modelled as a record carrying its payload, the secret it
  was signed with, its issued-at instant and its expiry
  (`jsonwebtoken` includes `iat` in every token, so two tokens signed with
  the same payload at different instants are different strings);
* the Mongo document store is a list of user records; `findOne` is
  `List.find?` and `save` replaces every record with the same `_id`;
* the random plaintext of a one-time token
  (`crypto.randomBytes(32).toString('hex')`) is passed in as an argument;
* the outcome of outbound e-mail delivery is passed in as a boolean.

Times are natural numbers; `jwt.verify` accepts a token iff the current
time is strictly below its `exp`, and the Mongo `$gt: Date.now()` filter
matches iff the stored expiry is strictly above the current time, both as
in the libraries.
-/

/-- `UserRole` from `src/types/index.ts`. -/
inductive UserRole where
  | user
  | admin
deriving DecidableEq, Repr

/-- The `type` discriminator of `JWTPayload` in `src/types/index.ts`. -/
inductive TokenType where
  | access
  | refresh
deriving DecidableEq, Repr

/-- `JWTPayload` from `src/types/index.ts`: the claims the service signs. -/
structure JWTPayload where
  userId : Nat
  email : String
  role : UserRole
  type : TokenType
deriving DecidableEq, Repr

/-- A signed JWT as produced by `jwt.sign(payload, secret, {expiresIn})`:
the payload, the signing secret, the issued-at instant (`iat`, added by
`jsonwebtoken` to every token) and the expiry instant. -/
structure SignedToken where
  payload : JWTPayload
  secret : Nat
  iat : Nat
  exp : Nat
deriving DecidableEq, Repr

/-- `TokenPair` from `src/types/index.ts`. -/
structure TokenPair where
  accessToken : SignedToken
  refreshToken : SignedToken
deriving DecidableEq, Repr

/-- The `jwt` part of the application config (`config/app.ts`): two signing
secrets and two expiry windows. -/
structure JwtConfig where
  accessSecret : Nat
  refreshSecret : Nat
  accessExpiresIn : Nat
  refreshExpiresIn : Nat
deriving DecidableEq, Repr

/-- Model of `crypto.createHash('sha256').update(s).digest('hex')`: a
deterministic injective function on strings. -/
def sha256Hex (s : String) : String := "sha256:" ++ s

/-- Model of `bcrypt.hash(s, salt)` with the fixed work factor of the
pre-save hook: a deterministic injective function on strings. -/
def bcryptHash (s : String) : String := "bcrypt:" ++ s

/-- Model of `bcrypt.compare(candidate, hash)`. -/
def bcryptCompare (candidate hash : String) : Bool :=
  hash = bcryptHash candidate

/-- A persisted user document (`userSchema` in `src/models/user.model.ts`),
restricted to the fields the token lifecycle reads or writes.  `password`
stores the bcrypt hash (the pre-save hook hashes any modified plaintext
before it reaches the store). -/
structure UserRec where
  id : Nat
  email : String
  password : String
  firstName : String
  lastName : String
  role : UserRole
  isEmailVerified : Bool
  emailVerificationToken : Option String
  emailVerificationExpires : Option Nat
  passwordResetToken : Option String
  passwordResetExpires : Option Nat
  refreshTokens : List SignedToken
deriving DecidableEq, Repr

/-- `userSchema.methods.comparePassword`: delegate to `bcrypt.compare`
against the stored hash. -/
def UserRec.comparePassword (u : UserRec) (candidate : String) : Bool :=
  bcryptCompare candidate u.password

/-- `userSchema.methods.clearTokens` (invoked by logout): clear the
refresh-token list and both pending one-time token hash/expiry pairs. -/
def UserRec.clearTokens (u : UserRec) : UserRec :=
  { u with
    refreshTokens := []
    emailVerificationToken := none
    emailVerificationExpires := none
    passwordResetToken := none
    passwordResetExpires := none }

/-- `userSchema.methods.generatePasswordResetToken`: `rnd` stands for the
fresh `crypto.randomBytes(32).toString('hex')`; the record stores only its
sha256 hash together with a 10-minute expiry, and the plaintext is
returned. -/
def UserRec.generatePasswordResetToken (u : UserRec) (rnd : String) (now : Nat) :
    UserRec × String :=
  ({ u with
      passwordResetToken := some (sha256Hex rnd)
      passwordResetExpires := some (now + 10 * 60 * 1000) }, rnd)

/-- `userSchema.methods.generateEmailVerificationToken`: as for the reset
token, with a 24-hour expiry. -/
def UserRec.generateEmailVerificationToken (u : UserRec) (rnd : String) (now : Nat) :
    UserRec × String :=
  ({ u with
      emailVerificationToken := some (sha256Hex rnd)
      emailVerificationExpires := some (now + 24 * 60 * 60 * 1000) }, rnd)

/-- The document store: the collection of user records. -/
abbrev UserDB := List UserRec

/-- `User.findById`: first record with the given `_id`. -/
def findById (db : UserDB) (uid : Nat) : Option UserRec :=
  db.find? (fun v => v.id = uid)

/-- Model of JavaScript `String.prototype.toLowerCase`: lower-case every
character. -/
def jsToLower (s : String) : String := String.mk (s.data.map Char.toLower)

/-- `userSchema.statics.findByEmail`: `findOne({email: email.toLowerCase()})`. -/
def findByEmail (db : UserDB) (email : String) : Option UserRec :=
  db.find? (fun v => v.email = jsToLower email)

/-- `document.save()`: write the record back by `_id`. -/
def saveUser (db : UserDB) (u : UserRec) : UserDB :=
  db.map (fun v => if v.id = u.id then u else v)

/-- The Mongo filter of `findByVerificationToken`: stored hash equals the
hash of the presented plaintext and `emailVerificationExpires > Date.now()`
(a missing expiry field never matches `$gt`). -/
def verificationMatches (v : UserRec) (hashedToken : String) (now : Nat) : Bool :=
  v.emailVerificationToken = some hashedToken &&
    match v.emailVerificationExpires with
    | some e => decide (now < e)
    | none => false

/-- `userSchema.statics.findByVerificationToken`. -/
def findByVerificationToken (db : UserDB) (token : String) (now : Nat) : Option UserRec :=
  db.find? (fun v => verificationMatches v (sha256Hex token) now)

/-- The Mongo filter of `findByPasswordResetToken`. -/
def resetMatches (v : UserRec) (hashedToken : String) (now : Nat) : Bool :=
  v.passwordResetToken = some hashedToken &&
    match v.passwordResetExpires with
    | some e => decide (now < e)
    | none => false

/-- `userSchema.statics.findByPasswordResetToken`. -/
def findByPasswordResetToken (db : UserDB) (token : String) (now : Nat) : Option UserRec :=
  db.find? (fun v => resetMatches v (sha256Hex token) now)

/-- `jwt.verify(token, secret)` at instant `now`: fails on a signature
produced with a different secret, fails once `now` has reached `exp`,
otherwise returns the payload. -/
def jwtVerify (t : SignedToken) (secret : Nat) (now : Nat) : Except String JWTPayload :=
  if t.secret ≠ secret then .error "invalid signature"
  else if t.exp ≤ now then .error "jwt expired"
  else .ok t.payload

/-- `JWTService.generateAccessToken`: sign `{userId, email, role,
type: 'access'}` with the access secret and the short expiry. -/
def generateAccessToken (cfg : JwtConfig) (now : Nat) (u : UserRec) : SignedToken :=
  { payload := { userId := u.id, email := u.email, role := u.role, type := .access }
    secret := cfg.accessSecret
    iat := now
    exp := now + cfg.accessExpiresIn }

/-- `JWTService.generateRefreshToken`: sign `{userId, email, role,
type: 'refresh'}` with the refresh secret and the long expiry. -/
def generateRefreshToken (cfg : JwtConfig) (now : Nat) (u : UserRec) : SignedToken :=
  { payload := { userId := u.id, email := u.email, role := u.role, type := .refresh }
    secret := cfg.refreshSecret
    iat := now
    exp := now + cfg.refreshExpiresIn }

/-- `JWTService.generateTokenPair`. -/
def generateTokenPair (cfg : JwtConfig) (now : Nat) (u : UserRec) : TokenPair :=
  { accessToken := generateAccessToken cfg now u
    refreshToken := generateRefreshToken cfg now u }

/-- `JWTService.verifyAccessToken`: `jwt.verify` against the access secret,
then the kind check `decoded.type !== 'access'`; every failure is caught
and resurfaced as the single message `Invalid access token`. -/
def verifyAccessToken (cfg : JwtConfig) (t : SignedToken) (now : Nat) :
    Except String JWTPayload :=
  match jwtVerify t cfg.accessSecret now with
  | .ok decoded =>
      if decoded.type = .access then .ok decoded else .error "Invalid access token"
  | .error _ => .error "Invalid access token"

/-- `JWTService.verifyRefreshToken`: `jwt.verify` against the refresh
secret, then the kind check `decoded.type !== 'refresh'`; every failure is
caught and resurfaced as the single message `Invalid refresh token`. -/
def verifyRefreshToken (cfg : JwtConfig) (t : SignedToken) (now : Nat) :
    Except String JWTPayload :=
  match jwtVerify t cfg.refreshSecret now with
  | .ok decoded =>
      if decoded.type = .refresh then .ok decoded else .error "Invalid refresh token"
  | .error _ => .error "Invalid refresh token"

/-- The `ApiError` hierarchy of the middleware module, by status code. -/
inductive ApiError where
  | badRequest : String → ApiError
  | unauthorized : String → ApiError
  | conflict : String → ApiError
deriving DecidableEq, Repr

/-- `ApiError.statusCode`. -/
def ApiError.statusCode : ApiError → Nat
  | .badRequest _ => 400
  | .unauthorized _ => 401
  | .conflict _ => 409

/-- `ApiError.message`. -/
def ApiError.message : ApiError → String
  | .badRequest m => m
  | .unauthorized m => m
  | .conflict m => m

/-- What a controller can throw: one of the typed `ApiError`s, or a plain
`new Error(message)` (whose `name` is `"Error"`). -/
inductive ThrownError where
  | api : ApiError → ThrownError
  | plain : String → ThrownError
deriving DecidableEq, Repr

/-- The JSON envelope the server answers with, reduced to the fields the
claims are about: HTTP status, the `success` flag and `message`. -/
structure ApiResp where
  status : Nat
  success : Bool
  message : String
deriving DecidableEq, Repr

/-- The global `errorHandler` middleware on the errors our controllers can
throw: an `ApiError` keeps its own status code and message; a plain
`Error` is neither an `ApiError` nor named `JsonWebTokenError` or
`TokenExpiredError`, so it falls through to status 500 with the message
`Internal Server Error` (the raw message only in development builds). -/
def errorHandlerResp (isDev : Bool) : ThrownError → ApiResp
  | .api a => { status := a.statusCode, success := false, message := a.message }
  | .plain msg =>
      { status := 500, success := false
        message := if isDev then msg else "Internal Server Error" }

/-- `AuthController.login`: look the user up by email (Unauthorized with
`Invalid email or password` when absent), compare the password hash (same
failure on mismatch), then mint a token pair, append the new refresh token
and save. -/
def login (cfg : JwtConfig) (db : UserDB) (email password : String) (now : Nat) :
    Except ThrownError (UserDB × TokenPair) :=
  match findByEmail db email with
  | none => .error (.api (.unauthorized "Invalid email or password"))
  | some user =>
      if user.comparePassword password then
        let tokens := generateTokenPair cfg now user
        let user' := { user with refreshTokens := user.refreshTokens ++ [tokens.refreshToken] }
        .ok (saveUser db user', tokens)
      else
        .error (.api (.unauthorized "Invalid email or password"))

/-- `AuthController.logout`: Unauthorized when no authenticated user is
attached to the request; otherwise `clearTokens` and save. -/
def logout (db : UserDB) (reqUser : Option UserRec) : Except ThrownError UserDB :=
  match reqUser with
  | none => .error (.api (.unauthorized "User not authenticated"))
  | some user => .ok (saveUser db user.clearTokens)

/-- `AuthController.refreshToken`: read the presented token from the
cookie/header channel (Unauthorized when absent), verify it with
`JWTService.verifyRefreshToken` (whose failure is a plain `Error`), look
the user up by the decoded id, check membership of the presented token in
the user's `refreshTokens`, then rotate: filter the presented token out,
push the newly minted refresh token, save, and return the new pair. -/
def refreshToken (cfg : JwtConfig) (db : UserDB) (cookie : Option SignedToken) (now : Nat) :
    Except ThrownError (UserDB × TokenPair) :=
  match cookie with
  | none => .error (.api (.unauthorized "Refresh token required"))
  | some tok =>
      match verifyRefreshToken cfg tok now with
      | .error e => .error (.plain e)
      | .ok decoded =>
          match findById db decoded.userId with
          | none => .error (.api (.unauthorized "User not found"))
          | some user =>
              if tok ∈ user.refreshTokens then
                let newTokens := generateTokenPair cfg now user
                let user' := { user with
                  refreshTokens :=
                    user.refreshTokens.filter (fun t => t ≠ tok) ++ [newTokens.refreshToken] }
                .ok (saveUser db user', newTokens)
              else
                .error (.api (.unauthorized "Invalid refresh token"))

/-- The HTTP status the refresh endpoint answers with: 200 on success,
otherwise whatever the global `errorHandler` derives from the thrown
error. -/
def refreshStatus (cfg : JwtConfig) (db : UserDB) (cookie : Option SignedToken)
    (now : Nat) (isDev : Bool) : Nat :=
  match refreshToken cfg db cookie now with
  | .ok _ => 200
  | .error e => (errorHandlerResp isDev e).status

/-- `AuthController.verifyEmail`: BadRequest when the body token is absent
or empty (JS falsiness of `""`), BadRequest `Invalid or expired
verification token` when no user matches hash+expiry; on success mark the
email verified, clear the stored hash and expiry and save (the welcome
e-mail is best-effort and does not affect the outcome). -/
def verifyEmail (db : UserDB) (token : Option String) (now : Nat) :
    Except ThrownError UserDB :=
  match token with
  | none => .error (.api (.badRequest "Verification token is required"))
  | some tok =>
      if tok = "" then .error (.api (.badRequest "Verification token is required"))
      else
        match findByVerificationToken db tok now with
        | none => .error (.api (.badRequest "Invalid or expired verification token"))
        | some user =>
            let user' := { user with
              isEmailVerified := true
              emailVerificationToken := none
              emailVerificationExpires := none }
            .ok (saveUser db user')

/-- `AuthController.forgotPassword`: when no account carries the email,
answer 200 with the generic message; otherwise store a fresh reset-token
hash and expiry, save, and attempt delivery — a delivery failure is
rethrown as a plain `Error('Failed to send password reset email')`, while
success answers 200 with the same generic message.  `rnd` is the random
plaintext, `emailOk` the outcome of the outbound delivery. -/
def forgotPassword (db : UserDB) (email : String) (now : Nat) (rnd : String)
    (emailOk : Bool) : Except ThrownError (UserDB × ApiResp) :=
  match findByEmail db email with
  | none =>
      .ok (db, { status := 200, success := true
                 message := "If an account with that email exists, a password reset link has been sent" })
  | some user =>
      let issued := user.generatePasswordResetToken rnd now
      let db' := saveUser db issued.1
      if emailOk then
        .ok (db', { status := 200, success := true
                    message := "If an account with that email exists, a password reset link has been sent" })
      else
        .error (.plain "Failed to send password reset email")

/-- The full HTTP response of the forgot-password endpoint, routing a
thrown error through the global `errorHandler`. -/
def forgotHttp (db : UserDB) (email : String) (now : Nat) (rnd : String)
    (emailOk isDev : Bool) : ApiResp :=
  match forgotPassword db email now rnd emailOk with
  | .ok r => r.2
  | .error e => errorHandlerResp isDev e

/-- `AuthController.resetPassword`: BadRequest when token or password is
absent or empty, BadRequest `Invalid or expired reset token` when no user
matches hash+expiry; on success set the new password (hashed by the
pre-save hook), clear the stored reset hash and expiry, save, then clear
the whole refresh-token list and save again. -/
def resetPassword (db : UserDB) (token password : Option String) (now : Nat) :
    Except ThrownError UserDB :=
  match token, password with
  | some tok, some pw =>
      if tok = "" ∨ pw = "" then
        .error (.api (.badRequest "Token and new password are required"))
      else
        match findByPasswordResetToken db tok now with
        | none => .error (.api (.badRequest "Invalid or expired reset token"))
        | some user =>
            let user₁ := { user with
              password := bcryptHash pw
              passwordResetToken := none
              passwordResetExpires := none }
            let db₁ := saveUser db user₁
            let user₂ := { user₁ with refreshTokens := [] }
            .ok (saveUser db₁ user₂)
  | _, _ => .error (.api (.badRequest "Token and new password are required"))

/-- Decidable equality of controller outcomes, so that concrete runs can
be checked by evaluation. -/
instance {ε α : Type} [DecidableEq ε] [DecidableEq α] : DecidableEq (Except ε α) :=
  fun x y =>
    match x, y with
    | .ok a, .ok b =>
        if h : a = b then isTrue (by rw [h]) else isFalse (fun hc => h (Except.ok.inj hc))
    | .error a, .error b =>
        if h : a = b then isTrue (by rw [h]) else isFalse (fun hc => h (Except.error.inj hc))
    | .ok _, .error _ => isFalse (fun hc => Except.noConfusion hc)
    | .error _, .ok _ => isFalse (fun hc => Except.noConfusion hc)

/-! ### Sample data for concrete evaluations -/

/-- A sample signing configuration. -/
def cfgEx : JwtConfig :=
  { accessSecret := 1, refreshSecret := 2
    accessExpiresIn := 900, refreshExpiresIn := 604800 }

/-- A sample refresh token minted at instant 0 for user 7. -/
def tokEx : SignedToken :=
  { payload := { userId := 7, email := "alice@example.com", role := .user, type := .refresh }
    secret := 2, iat := 0, exp := 604800 }

/-- A refresh-kind token with a valid signature and fresh timestamps that
is not a member of `userEx`'s valid set (different `iat`). -/
def strayTokEx : SignedToken :=
  { payload := { userId := 7, email := "alice@example.com", role := .user, type := .refresh }
    secret := 2, iat := 1, exp := 604800 }

/-- An access-kind token signed with the refresh secret: verifiable
signature, unexpired, but the wrong kind. -/
def badTokEx : SignedToken :=
  { payload := { userId := 7, email := "alice@example.com", role := .user, type := .access }
    secret := 2, iat := 0, exp := 604800 }

/-- A sample user record owning `tokEx`, with pending verification and
reset tokens. -/
def userEx : UserRec :=
  { id := 7, email := "alice@example.com", password := bcryptHash "Passw0rd!"
    firstName := "Alice", lastName := "Smith", role := .user, isEmailVerified := false
    emailVerificationToken := some (sha256Hex "vtok")
    emailVerificationExpires := some 1000
    passwordResetToken := some (sha256Hex "rtok")
    passwordResetExpires := some 1000
    refreshTokens := [tokEx] }

/-! ### Lemmas about the document store -/

theorem findById_eq_id {db : UserDB} {uid : Nat} {u : UserRec}
    (h : findById db uid = some u) : u.id = uid := by
  have hp := List.find?_some h
  simpa using hp

theorem findById_saveUser {db : UserDB} {uid : Nat} {u u' : UserRec}
    (h : findById db uid = some u) (hid : u'.id = u.id) :
    findById (saveUser db u') uid = some u' := by
  induction db with
  | nil => simp [findById] at h
  | cons w ws ih =>
      by_cases hw : w.id = uid
      · have hu : w = u := by
          simpa [findById, List.find?_cons, hw] using h
        subst hu
        simp [findById, saveUser, List.find?_cons, hid, hw]
      · have h' : findById ws uid = some u := by
          simpa [findById, List.find?_cons, hw] using h
        have huid : u.id = uid := findById_eq_id h'
        have hwne : ¬ w.id = u'.id := by
          rw [hid, huid]; exact hw
        have hrec := ih h'
        simpa [findById, saveUser, List.find?_cons, hw, hwne] using hrec

theorem mem_saveUser {db : UserDB} {u' w : UserRec}
    (h : w ∈ saveUser db u') : w = u' ∨ (w ∈ db ∧ w.id ≠ u'.id) := by
  rcases List.mem_map.mp h with ⟨v, hv, hfv⟩
  by_cases hid : v.id = u'.id
  · left
    rw [if_pos hid] at hfv
    exact hfv.symm
  · right
    rw [if_neg hid] at hfv
    subst hfv
    exact ⟨hv, hid⟩

theorem findByVerificationToken_eq_none {db : UserDB} {tok : String} {now : Nat}
    (h : ∀ v ∈ db, v.emailVerificationToken ≠ some (sha256Hex tok)) :
    findByVerificationToken db tok now = none := by
  apply List.find?_eq_none.mpr
  intro v hv
  simp [verificationMatches, h v hv]

theorem findByPasswordResetToken_eq_none {db : UserDB} {tok : String} {now : Nat}
    (h : ∀ v ∈ db, v.passwordResetToken ≠ some (sha256Hex tok)) :
    findByPasswordResetToken db tok now = none := by
  apply List.find?_eq_none.mpr
  intro v hv
  simp [resetMatches, h v hv]

theorem saveUser_verification_cleared {db : UserDB} {u u' : UserRec} {h : String}
    (huniq : ∀ v ∈ db, v.emailVerificationToken = some h → v.id = u.id)
    (hid : u'.id = u.id) (hcl : u'.emailVerificationToken = none) :
    ∀ w ∈ saveUser db u', w.emailVerificationToken ≠ some h := by
  intro w hw
  rcases mem_saveUser hw with heq | ⟨hmem, hne⟩
  · subst heq
    simp [hcl]
  · intro hcontra
    exact hne (hid ▸ huniq w hmem hcontra)

theorem saveUser_reset_cleared {db : UserDB} {u u' : UserRec} {h : String}
    (huniq : ∀ v ∈ db, v.passwordResetToken = some h → v.id = u.id)
    (hid : u'.id = u.id) (hcl : u'.passwordResetToken = none) :
    ∀ w ∈ saveUser db u', w.passwordResetToken ≠ some h := by
  intro w hw
  rcases mem_saveUser hw with heq | ⟨hmem, hne⟩
  · subst heq
    simp [hcl]
  · intro hcontra
    exact hne (hid ▸ huniq w hmem hcontra)

/-! ### Lemmas about the token codec -/

theorem verifyRefreshToken_ok {cfg : JwtConfig} {t : SignedToken} {now : Nat}
    (hsec : t.secret = cfg.refreshSecret) (htype : t.payload.type = .refresh)
    (hexp : now < t.exp) :
    verifyRefreshToken cfg t now = .ok t.payload := by
  simp [verifyRefreshToken, jwtVerify, hsec, htype, Nat.not_le.mpr hexp]

theorem verifyRefreshToken_wrong_type {cfg : JwtConfig} {t : SignedToken} {now : Nat}
    (h : t.payload.type ≠ .refresh) :
    verifyRefreshToken cfg t now = .error "Invalid refresh token" := by
  by_cases h1 : t.secret = cfg.refreshSecret
  · by_cases h2 : t.exp ≤ now
    · simp [verifyRefreshToken, jwtVerify, h1, h2]
    · simp [verifyRefreshToken, jwtVerify, h1, h2, h]
  · simp [verifyRefreshToken, jwtVerify, h1]

theorem verifyAccessToken_wrong_type {cfg : JwtConfig} {t : SignedToken} {now : Nat}
    (h : t.payload.type ≠ .access) :
    verifyAccessToken cfg t now = .error "Invalid access token" := by
  by_cases h1 : t.secret = cfg.accessSecret
  · by_cases h2 : t.exp ≤ now
    · simp [verifyAccessToken, jwtVerify, h1, h2]
    · simp [verifyAccessToken, jwtVerify, h1, h2, h]
  · simp [verifyAccessToken, jwtVerify, h1]

/-! ### Claim theorems -/

/-- Claim C3: a token minted with kind `access` fails verification by the
refresh-token verifier, and a token minted with kind `refresh` fails
verification by the access-token verifier — for every configuration,
user, mint instant and check instant, hence in particular when the
signature is verifiable and the token unexpired. -/
theorem token_kind_isolation (cfg : JwtConfig) (u : UserRec) (mint now : Nat) :
    verifyRefreshToken cfg (generateAccessToken cfg mint u) now =
      .error "Invalid refresh token" ∧
    verifyAccessToken cfg (generateRefreshToken cfg mint u) now =
      .error "Invalid access token" := by
  constructor
  · exact verifyRefreshToken_wrong_type (by simp [generateAccessToken])
  · exact verifyAccessToken_wrong_type (by simp [generateRefreshToken])

/-- Claim C6: a failing login raises Unauthorized with the identical
message `Invalid email or password`, both when no user carries the email
and when the password does not match the stored hash. -/
theorem login_uniform_unauthorized
    (cfg : JwtConfig) (db : UserDB) (email pw : String) (now : Nat) :
    (findByEmail db email = none →
      login cfg db email pw now =
        .error (.api (.unauthorized "Invalid email or password"))) ∧
    (∀ u, findByEmail db email = some u → u.comparePassword pw = false →
      login cfg db email pw now =
        .error (.api (.unauthorized "Invalid email or password"))) := by
  constructor
  · intro h
    simp [login, h]
  · intro u h hpw
    simp [login, h, hpw]

/-- Witness for C6: the message is the same for an unknown email (empty
store) and for a wrong password against `userEx`. -/
theorem login_uniform_unauthorized_witness :
    login cfgEx [] "alice@example.com" "Passw0rd!" 0 =
      .error (.api (.unauthorized "Invalid email or password")) ∧
    login cfgEx [userEx] "alice@example.com" "wrong-password" 0 =
      .error (.api (.unauthorized "Invalid email or password")) :=
  ⟨(login_uniform_unauthorized cfgEx [] "alice@example.com" "Passw0rd!" 0).1 (by decide),
   (login_uniform_unauthorized cfgEx [userEx] "alice@example.com" "wrong-password" 0).2
     userEx (by decide) (by decide)⟩

/-- Claim C8: the one-time token lookups match a user only when the stored
hash equals the sha256 hash of the presented plaintext and the stored
expiry is strictly in the future — so a token presented at or after its
expiry is never consumed, even if never used before. -/
theorem one_time_token_expiry :
    (∀ (db : UserDB) (tok : String) (now : Nat) (u : UserRec),
      findByVerificationToken db tok now = some u →
      u.emailVerificationToken = some (sha256Hex tok) ∧
        ∃ e, u.emailVerificationExpires = some e ∧ now < e) ∧
    (∀ (db : UserDB) (tok : String) (now : Nat) (u : UserRec),
      findByPasswordResetToken db tok now = some u →
      u.passwordResetToken = some (sha256Hex tok) ∧
        ∃ e, u.passwordResetExpires = some e ∧ now < e) := by
  constructor
  · intro db tok now u h
    have hp := List.find?_some h
    simp [verificationMatches] at hp
    rcases hp with ⟨h1, h2⟩
    refine ⟨h1, ?_⟩
    cases he : u.emailVerificationExpires with
    | none => rw [he] at h2; simp at h2
    | some e =>
        rw [he] at h2
        simp at h2
        exact ⟨e, rfl, h2⟩
  · intro db tok now u h
    have hp := List.find?_some h
    simp [resetMatches] at hp
    rcases hp with ⟨h1, h2⟩
    refine ⟨h1, ?_⟩
    cases he : u.passwordResetExpires with
    | none => rw [he] at h2; simp at h2
    | some e =>
        rw [he] at h2
        simp at h2
        exact ⟨e, rfl, h2⟩

/-- Witness for C8: evaluated on `userEx`, whose pending tokens expire at
instant 1000, looked up at instant 5. -/
theorem one_time_token_expiry_witness :
    (userEx.emailVerificationToken = some (sha256Hex "vtok") ∧
      ∃ e, userEx.emailVerificationExpires = some e ∧ 5 < e) ∧
    (userEx.passwordResetToken = some (sha256Hex "rtok") ∧
      ∃ e, userEx.passwordResetExpires = some e ∧ 5 < e) :=
  ⟨one_time_token_expiry.1 [userEx] "vtok" 5 userEx (by decide),
   one_time_token_expiry.2 [userEx] "rtok" 5 userEx (by decide)⟩

theorem refreshToken_rotates {cfg : JwtConfig} {db : UserDB} {u : UserRec}
    {t : SignedToken} {now : Nat}
    (hmem : t ∈ u.refreshTokens)
    (hfind : findById db t.payload.userId = some u)
    (hsec : t.secret = cfg.refreshSecret) (htype : t.payload.type = TokenType.refresh)
    (hexp : now < t.exp) :
    refreshToken cfg db (some t) now =
      .ok
        (saveUser db
          { u with refreshTokens := u.refreshTokens.filter (fun s => s ≠ t) ++ [generateRefreshToken cfg now u] },
          generateTokenPair cfg now u) := by
  have hver := verifyRefreshToken_ok hsec htype hexp
  simp [refreshToken, hver, hfind, hmem, generateTokenPair]

/-- Claim C1 (amended): provided the refresh call happens at an instant
other than the presented token's mint instant (`t.iat ≠ now`, so the
newly minted refresh token is a distinct token string — see the
counterexample for the same-instant corner), a refresh token `t` in the
user's valid set is accepted exactly once: the first refresh call rotates
(removing `t` and minting a new pair), and a second call presenting the
same `t` against the updated store fails with Unauthorized.  The other
hypotheses say that `t` verifies at both call instants. -/
theorem refresh_rotation_single_use
    (cfg : JwtConfig) (db : UserDB) (u : UserRec) (t : SignedToken) (now now₂ : Nat)
    (hmem : t ∈ u.refreshTokens)
    (hfind : findById db t.payload.userId = some u)
    (hsec : t.secret = cfg.refreshSecret)
    (htype : t.payload.type = TokenType.refresh)
    (hexp : now < t.exp) (hexp₂ : now₂ < t.exp)
    (hiat : t.iat ≠ now) :
    refreshToken cfg db (some t) now =
      .ok
        (saveUser db
          { u with refreshTokens := u.refreshTokens.filter (fun s => s ≠ t) ++ [generateRefreshToken cfg now u] },
          generateTokenPair cfg now u) ∧
    refreshToken cfg
        (saveUser db
          { u with refreshTokens := u.refreshTokens.filter (fun s => s ≠ t) ++ [generateRefreshToken cfg now u] })
        (some t) now₂ =
      .error (.api (.unauthorized "Invalid refresh token")) := by
  refine ⟨refreshToken_rotates hmem hfind hsec htype hexp, ?_⟩
  have hver₂ := verifyRefreshToken_ok hsec htype hexp₂
  have hfind' :
      findById
        (saveUser db
          { u with refreshTokens := u.refreshTokens.filter (fun s => s ≠ t) ++ [generateRefreshToken cfg now u] })
        t.payload.userId =
      some { u with refreshTokens := u.refreshTokens.filter (fun s => s ≠ t) ++ [generateRefreshToken cfg now u] } :=
    findById_saveUser hfind rfl
  have hnot :
      t ∉ u.refreshTokens.filter (fun s => s ≠ t) ++ [generateRefreshToken cfg now u] := by
    intro hmem'
    rcases List.mem_append.mp hmem' with hmf | hml
    · have := (List.mem_filter.mp hmf).2
      simp at this
    · have ht : t = generateRefreshToken cfg now u := by simpa using hml
      have hti : t.iat = now := by rw [ht]; rfl
      exact hiat hti
  simp only [ne_eq, decide_not] at hfind' hnot
  simp [refreshToken, hver₂, hfind', hnot]

/-- Witness for C1: evaluated on `userEx` holding `tokEx`, with the first
refresh at instant 5 and the retry at instant 6. -/
theorem refresh_rotation_single_use_witness :
    refreshToken cfgEx [userEx] (some tokEx) 5 =
      .ok
        (saveUser [userEx]
          { userEx with refreshTokens := userEx.refreshTokens.filter (fun s => s ≠ tokEx) ++ [generateRefreshToken cfgEx 5 userEx] },
          generateTokenPair cfgEx 5 userEx) ∧
    refreshToken cfgEx
        (saveUser [userEx]
          { userEx with refreshTokens := userEx.refreshTokens.filter (fun s => s ≠ tokEx) ++ [generateRefreshToken cfgEx 5 userEx] })
        (some tokEx) 6 =
      .error (.api (.unauthorized "Invalid refresh token")) :=
  refresh_rotation_single_use cfgEx [userEx] userEx tokEx 5 6 (by decide) (by decide)
    (by decide) (by decide) (by decide) (by decide) (by decide)

/-- Claim C1 counterexample: when the refresh call happens at the very
instant the presented token was minted (`tokEx` has `iat = 0`,
`tokEx = generateRefreshToken cfgEx 0 userEx`), the rotation re-mints a
token identical to the presented one — deterministic signing with the
same payload, secret, `iat` and `exp` — so the store after the first
refresh still holds `tokEx` (the saved collection is again `[userEx]`)
and a second refresh presenting the same `tokEx` succeeds instead of
failing with Unauthorized. -/
theorem refresh_rotation_replay_counterexample :
    refreshToken cfgEx [userEx] (some tokEx) 0 =
      .ok ([userEx], generateTokenPair cfgEx 0 userEx) ∧
    refreshToken cfgEx [userEx] (some tokEx) 1 =
      .ok (saveUser [userEx] { userEx with refreshTokens := [generateRefreshToken cfgEx 1 userEx] },
        generateTokenPair cfgEx 1 userEx) := by
  decide

/-- Claim C10: a successful rotation is framed to the presented token: the
saved record removes exactly the entries equal to `t`, appends the one
newly minted refresh token, keeps every other member of the set, and
leaves id, email, password hash, role and the verified flag unchanged. -/
theorem refresh_rotation_frame
    (cfg : JwtConfig) (db : UserDB) (u : UserRec) (t : SignedToken) (now : Nat)
    (hmem : t ∈ u.refreshTokens)
    (hfind : findById db t.payload.userId = some u)
    (hsec : t.secret = cfg.refreshSecret)
    (htype : t.payload.type = TokenType.refresh)
    (hexp : now < t.exp) :
    ∃ u', refreshToken cfg db (some t) now =
        .ok (saveUser db u', generateTokenPair cfg now u) ∧
      u'.refreshTokens =
        u.refreshTokens.filter (fun s => s ≠ t) ++ [generateRefreshToken cfg now u] ∧
      (∀ s, s ∈ u'.refreshTokens ↔
        ((s ∈ u.refreshTokens ∧ s ≠ t) ∨ s = generateRefreshToken cfg now u)) ∧
      u'.id = u.id ∧ u'.email = u.email ∧ u'.password = u.password ∧
      u'.role = u.role ∧ u'.isEmailVerified = u.isEmailVerified := by
  refine ⟨_, refreshToken_rotates hmem hfind hsec htype hexp, rfl, ?_, rfl, rfl, rfl, rfl, rfl⟩
  intro s
  simp [List.mem_filter, List.mem_append]

/-- Witness for C10: evaluated on `userEx` holding `tokEx` at instant 5. -/
theorem refresh_rotation_frame_witness :
    ∃ u', refreshToken cfgEx [userEx] (some tokEx) 5 =
        .ok (saveUser [userEx] u', generateTokenPair cfgEx 5 userEx) ∧
      u'.refreshTokens =
        userEx.refreshTokens.filter (fun s => s ≠ tokEx) ++
          [generateRefreshToken cfgEx 5 userEx] ∧
      (∀ s, s ∈ u'.refreshTokens ↔
        ((s ∈ userEx.refreshTokens ∧ s ≠ tokEx) ∨ s = generateRefreshToken cfgEx 5 userEx)) ∧
      u'.id = userEx.id ∧ u'.email = userEx.email ∧ u'.password = userEx.password ∧
      u'.role = userEx.role ∧ u'.isEmailVerified = userEx.isEmailVerified :=
  refresh_rotation_frame cfgEx [userEx] userEx tokEx 5 (by decide) (by decide)
    (by decide) (by decide) (by decide)

/-- Claim C2 (documents the divergence): an absent token and a token that
fails the valid-set membership check do answer 401, but a presented token
that fails verification — here `badTokEx`, signed with the refresh secret
and unexpired but of kind `access` — is rethrown by the token service as a
plain `Error`, which the global `errorHandler` maps to HTTP 500, not
401. -/
theorem refresh_error_paths_status :
    refreshStatus cfgEx [userEx] none 5 false = 401 ∧
    refreshStatus cfgEx [userEx] (some strayTokEx) 5 false = 401 ∧
    refreshToken cfgEx [userEx] (some badTokEx) 5 =
      .error (.plain "Invalid refresh token") ∧
    refreshStatus cfgEx [userEx] (some badTokEx) 5 false = 500 := by
  decide

/-- Claim C5 counterexample: when the outbound reset e-mail delivery
fails, forgot-password for the existing `alice@example.com` answers 500
while the same request for the unknown `bob@example.com` answers 200 — the
two responses are distinguishable. -/
theorem forgot_password_enumeration_counterexample :
    forgotHttp [userEx] "alice@example.com" 0 "fresh" false false ≠
      forgotHttp [userEx] "bob@example.com" 0 "fresh" false false := by
  decide

/-- Claim C5 (amended): provided the reset e-mail delivery succeeds, the
forgot-password responses for an existing and for a non-existent email are
identical — status 200, `success: true` and the same generic message. -/
theorem forgot_password_anti_enumeration
    (db : UserDB) (e₁ e₂ : String) (now : Nat) (rnd : String) (isDev : Bool) (u : UserRec)
    (h₁ : findByEmail db e₁ = some u) (h₂ : findByEmail db e₂ = none) :
    forgotHttp db e₁ now rnd true isDev = forgotHttp db e₂ now rnd true isDev ∧
    forgotHttp db e₁ now rnd true isDev =
      { status := 200, success := true
        message := "If an account with that email exists, a password reset link has been sent" } := by
  constructor <;> simp [forgotHttp, forgotPassword, h₁, h₂]

/-- Witness for C5 (amended): evaluated on `userEx` with delivery
succeeding. -/
theorem forgot_password_anti_enumeration_witness :
    forgotHttp [userEx] "alice@example.com" 0 "fresh" true false =
      forgotHttp [userEx] "bob@example.com" 0 "fresh" true false :=
  (forgot_password_anti_enumeration [userEx] "alice@example.com" "bob@example.com" 0 "fresh"
    false userEx (by decide) (by decide)).1

/-- Claim C4: after a successful reset-password with a valid, unexpired
reset token, the user's refresh-token set is empty, so a refresh token
issued to that user before the reset (still verifying at the later call
instant) fails rotation with Unauthorized. -/
theorem reset_password_revokes_sessions
    (cfg : JwtConfig) (db : UserDB) (u : UserRec) (t : SignedToken)
    (tok pw : String) (now now₂ : Nat)
    (htok : tok ≠ "") (hpw : pw ≠ "")
    (hfound : findByPasswordResetToken db tok now = some u)
    (hfind : findById db u.id = some u)
    (huid : t.payload.userId = u.id)
    (hsec : t.secret = cfg.refreshSecret) (htype : t.payload.type = TokenType.refresh)
    (hexp₂ : now₂ < t.exp) :
    ∃ db', resetPassword db (some tok) (some pw) now = .ok db' ∧
      (∃ u', findById db' u.id = some u' ∧ u'.refreshTokens = []) ∧
      refreshToken cfg db' (some t) now₂ =
        .error (.api (.unauthorized "Invalid refresh token")) := by
  have hres : resetPassword db (some tok) (some pw) now =
      .ok (saveUser
        (saveUser db
          { u with password := bcryptHash pw, passwordResetToken := none, passwordResetExpires := none })
        { u with password := bcryptHash pw, passwordResetToken := none, passwordResetExpires := none, refreshTokens := [] }) := by
    simp [resetPassword, htok, hpw, hfound]
  have h1 : findById
      (saveUser db
        { u with password := bcryptHash pw, passwordResetToken := none, passwordResetExpires := none })
      u.id =
      some { u with password := bcryptHash pw, passwordResetToken := none, passwordResetExpires := none } :=
    findById_saveUser hfind rfl
  have h2 : findById
      (saveUser
        (saveUser db
          { u with password := bcryptHash pw, passwordResetToken := none, passwordResetExpires := none })
        { u with password := bcryptHash pw, passwordResetToken := none, passwordResetExpires := none, refreshTokens := [] })
      u.id =
      some { u with password := bcryptHash pw, passwordResetToken := none, passwordResetExpires := none, refreshTokens := [] } :=
    findById_saveUser h1 rfl
  have hver₂ := verifyRefreshToken_ok hsec htype hexp₂
  refine ⟨_, hres, ⟨_, h2, rfl⟩, ?_⟩
  simp [refreshToken, hver₂, huid, h2]

/-- Witness for C4: evaluated on `userEx`, resetting with the pending
`rtok` at instant 5 and replaying the old refresh token `tokEx` at
instant 6. -/
theorem reset_password_revokes_sessions_witness :
    ∃ db', resetPassword [userEx] (some "rtok") (some "NewPass1!") 5 = .ok db' ∧
      (∃ u', findById db' userEx.id = some u' ∧ u'.refreshTokens = []) ∧
      refreshToken cfgEx db' (some tokEx) 6 =
        .error (.api (.unauthorized "Invalid refresh token")) :=
  reset_password_revokes_sessions cfgEx [userEx] userEx tokEx "rtok" "NewPass1!" 5 6
    (by decide) (by decide) (by decide) (by decide) (by decide) (by decide) (by decide)
    (by decide)

/-- Claim C7: a one-time token is consumed at most once: a successful
consume clears the stored hash and expiry from the user record, so a
second consume presenting the same plaintext fails with BadRequest —
`Invalid or expired verification token` for the verification purpose and
`Invalid or expired reset token` for the reset purpose.  The uniqueness
hypothesis says the matched user is the only record carrying that stored
hash. -/
theorem one_time_token_single_use :
    (∀ (db : UserDB) (tok : String) (now now₂ : Nat) (u : UserRec),
      tok ≠ "" →
      findByVerificationToken db tok now = some u →
      (∀ v ∈ db, v.emailVerificationToken = some (sha256Hex tok) → v.id = u.id) →
      ∃ db', verifyEmail db (some tok) now = .ok db' ∧
        verifyEmail db' (some tok) now₂ =
          .error (.api (.badRequest "Invalid or expired verification token"))) ∧
    (∀ (db : UserDB) (tok pw pw₂ : String) (now now₂ : Nat) (u : UserRec),
      tok ≠ "" → pw ≠ "" → pw₂ ≠ "" →
      findByPasswordResetToken db tok now = some u →
      (∀ v ∈ db, v.passwordResetToken = some (sha256Hex tok) → v.id = u.id) →
      ∃ db', resetPassword db (some tok) (some pw) now = .ok db' ∧
        resetPassword db' (some tok) (some pw₂) now₂ =
          .error (.api (.badRequest "Invalid or expired reset token"))) := by
  constructor
  · intro db tok now now₂ u htok hfound huniq
    refine ⟨saveUser db
      { u with isEmailVerified := true, emailVerificationToken := none, emailVerificationExpires := none },
      ?_, ?_⟩
    · simp [verifyEmail, htok, hfound]
    · have hnone : findByVerificationToken
          (saveUser db
            { u with isEmailVerified := true, emailVerificationToken := none, emailVerificationExpires := none })
          tok now₂ = none :=
        findByVerificationToken_eq_none (saveUser_verification_cleared huniq rfl rfl)
      simp [verifyEmail, htok, hnone]
  · intro db tok pw pw₂ now now₂ u htok hpw hpw₂ hfound huniq
    refine ⟨saveUser
      (saveUser db
        { u with password := bcryptHash pw, passwordResetToken := none, passwordResetExpires := none })
      { u with password := bcryptHash pw, passwordResetToken := none, passwordResetExpires := none, refreshTokens := [] },
      ?_, ?_⟩
    · simp [resetPassword, htok, hpw, hfound]
    · have h1 : ∀ w ∈ saveUser db
          { u with password := bcryptHash pw, passwordResetToken := none, passwordResetExpires := none },
          w.passwordResetToken ≠ some (sha256Hex tok) :=
        saveUser_reset_cleared huniq rfl rfl
      have h2 : ∀ w ∈ saveUser
          (saveUser db
            { u with password := bcryptHash pw, passwordResetToken := none, passwordResetExpires := none })
          { u with password := bcryptHash pw, passwordResetToken := none, passwordResetExpires := none, refreshTokens := [] },
          w.passwordResetToken ≠ some (sha256Hex tok) := by
        intro w hw
        rcases mem_saveUser hw with heq | ⟨hmemw, -⟩
        · subst heq
          simp
        · exact h1 w hmemw
      have hnone := @findByPasswordResetToken_eq_none _ tok now₂ h2
      simp [resetPassword, htok, hpw₂, hnone]

/-- Witness for C7: evaluated on `userEx`, consuming the pending `vtok`
and `rtok` at instant 5 and replaying each at instant 6. -/
theorem one_time_token_single_use_witness :
    (∃ db', verifyEmail [userEx] (some "vtok") 5 = .ok db' ∧
      verifyEmail db' (some "vtok") 6 =
        .error (.api (.badRequest "Invalid or expired verification token"))) ∧
    (∃ db', resetPassword [userEx] (some "rtok") (some "NewPass1!") 5 = .ok db' ∧
      resetPassword db' (some "rtok") (some "NewPass2!") 6 =
        .error (.api (.badRequest "Invalid or expired reset token"))) :=
  ⟨one_time_token_single_use.1 [userEx] "vtok" 5 6 userEx (by decide) (by decide) (by decide),
   one_time_token_single_use.2 [userEx] "rtok" "NewPass1!" "NewPass2!" 5 6 userEx
     (by decide) (by decide) (by decide) (by decide) (by decide)⟩

/-- Claim C9: logout clears more than the refresh-token set: `clearTokens`
also sets the pending email-verification hash/expiry and password-reset
hash/expiry to `undefined`, so after logout any outstanding one-time token
whose hash was stored only on this user no longer matches any record. -/
theorem logout_clears_one_time_tokens
    (db : UserDB) (u : UserRec)
    (hfind : findById db u.id = some u) :
    ∃ db', logout db (some u) = .ok db' ∧
      findById db' u.id = some u.clearTokens ∧
      u.clearTokens.refreshTokens = [] ∧
      u.clearTokens.emailVerificationToken = none ∧
      u.clearTokens.emailVerificationExpires = none ∧
      u.clearTokens.passwordResetToken = none ∧
      u.clearTokens.passwordResetExpires = none ∧
      (∀ (tok : String) (now : Nat),
        (∀ v ∈ db, v.emailVerificationToken = some (sha256Hex tok) → v.id = u.id) →
        findByVerificationToken db' tok now = none) ∧
      (∀ (tok : String) (now : Nat),
        (∀ v ∈ db, v.passwordResetToken = some (sha256Hex tok) → v.id = u.id) →
        findByPasswordResetToken db' tok now = none) := by
  refine ⟨saveUser db u.clearTokens, rfl, findById_saveUser hfind rfl,
    rfl, rfl, rfl, rfl, rfl, ?_, ?_⟩
  · intro tok now huniq
    exact findByVerificationToken_eq_none (saveUser_verification_cleared huniq rfl rfl)
  · intro tok now huniq
    exact findByPasswordResetToken_eq_none (saveUser_reset_cleared huniq rfl rfl)

/-- Witness for C9: evaluated on `userEx`, which owns a refresh token and
both pending one-time tokens. -/
theorem logout_clears_one_time_tokens_witness :
    ∃ db', logout [userEx] (some userEx) = .ok db' ∧
      findById db' userEx.id = some userEx.clearTokens ∧
      userEx.clearTokens.refreshTokens = [] ∧
      userEx.clearTokens.emailVerificationToken = none ∧
      userEx.clearTokens.emailVerificationExpires = none ∧
      userEx.clearTokens.passwordResetToken = none ∧
      userEx.clearTokens.passwordResetExpires = none ∧
      (∀ (tok : String) (now : Nat),
        (∀ v ∈ [userEx], v.emailVerificationToken = some (sha256Hex tok) → v.id = userEx.id) →
        findByVerificationToken db' tok now = none) ∧
      (∀ (tok : String) (now : Nat),
        (∀ v ∈ [userEx], v.passwordResetToken = some (sha256Hex tok) → v.id = userEx.id) →
        findByPasswordResetToken db' tok now = none) :=
  logout_clears_one_time_tokens [userEx] userEx (by decide)
